import Mathlib

/-!
Verification of the stateful logic of `vocab_sender.py` (HUmasterFF/Vokabeltrainer):
the word Selector (`pick_words`), the Send-Guard (`schedule_allows_sending` plus
the duplicate check in `main`), the message formatter (`format_message`), and the
control flow of `main` around delivery and state persistence.

The embedding is shallow: Python dicts become association lists, Python sets
become `Finset ℕ`, the ambient clocks (`datetime.utcnow`, `date.today`,
`datetime.now(tz)`) become explicit parameters, the random draw of
`random.sample` becomes an explicit `chosen` parameter constrained by the
contract of `random.sample`, and the two delivery calls become explicit
outcome parameters (skipped / success / raised).
-/

set_option autoImplicit false

namespace VocabSender

/-- A vocabulary entry: one CSV row with columns `es`, `pos`, `de`, `example`. -/
structure VEntry where
  es : String
  pos : String
  de : String
  «example» : String
deriving DecidableEq, Inhabited

/-- The persisted state dictionary of `vocab_sender.py` (`state.json`):
`used` is a set of entry indices, `last_sent` an optional date string,
`sent_hours` a mapping from ISO date strings to sets of hours. -/
structure PyState where
  used : Finset ℕ
  last_sent : Option String
  sent_hours : List (String × Finset ℕ)
deriving DecidableEq

/-- The ambient clocks consulted by `schedule_allows_sending`:
`datetime.utcnow().hour`, `date.today().isoformat()` (system-local date), and
`datetime.now(ZoneInfo(TZ))` (date and hour in the configured timezone). -/
structure Clocks where
  localDate : String
  utcHour : ℕ
  tzDate : String
  tzHour : ℕ
deriving DecidableEq

/-- A clock environment where the local/UTC view and the configured-timezone
view agree (a single wall clock, as the spec's Send-Guard contract assumes). -/
def uniClock (d : String) (h : ℕ) : Clocks :=
  ⟨d, h, d, h⟩

/-- The whitespace stripped by Python's `str.strip()` and by `int()`
(`Py_UNICODE_ISSPACE`): the characters `c` with `chr(c).isspace()` —
U+0009–U+000D, U+001C–U+0020, U+0085, U+00A0, U+1680, U+2000–U+200A,
U+2028, U+2029, U+202F, U+205F and U+3000. -/
def isPySpace (c : Char) : Bool :=
  (decide (0x9 ≤ c.toNat) && decide (c.toNat ≤ 0xd)) ||
  (decide (0x1c ≤ c.toNat) && decide (c.toNat ≤ 0x20)) ||
  decide (c.toNat = 0x85) || decide (c.toNat = 0xa0) ||
  decide (c.toNat = 0x1680) ||
  (decide (0x2000 ≤ c.toNat) && decide (c.toNat ≤ 0x200a)) ||
  decide (c.toNat = 0x2028) || decide (c.toNat = 0x2029) ||
  decide (c.toNat = 0x202f) || decide (c.toNat = 0x205f) ||
  decide (c.toNat = 0x3000)

/-- `str.strip()` on the character list of a string. -/
def stripChars (l : List Char) : List Char :=
  ((l.dropWhile isPySpace).reverse.dropWhile isPySpace).reverse

/-- `str.strip()`. -/
def pyStrip (s : String) : String :=
  ⟨stripChars s.data⟩

/-- `str.split(",")` on a character list: split at every comma, keeping empty
pieces (so the empty string yields one empty piece, as in Python). -/
def splitCommaAux : List Char → List Char → List (List Char)
  | [], acc => [acc.reverse]
  | ',' :: rest, acc => acc.reverse :: splitCommaAux rest []
  | c :: rest, acc => splitCommaAux rest (c :: acc)

/-- `str.split(",")`. -/
def pySplitComma (s : String) : List String :=
  (splitCommaAux s.data []).map (fun l => (⟨l⟩ : String))

/-- The first codepoints of the runs of Unicode decimal digits (category Nd,
Unicode 14.0 as in CPython 3.11's `unicodedata`): every run is ten
consecutive codepoints with decimal values 0–9 (the mathematical block
U+1D7CE–U+1D7FF is five such runs). These are exactly the characters
`int()` accepts as digits. -/
def ndRangeStarts : List ℕ :=
  [0x30, 0x660, 0x6f0, 0x7c0, 0x966, 0x9e6, 0xa66, 0xae6, 0xb66, 0xbe6,
   0xc66, 0xce6, 0xd66, 0xde6, 0xe50, 0xed0, 0xf20, 0x1040, 0x1090, 0x17e0,
   0x1810, 0x1946, 0x19d0, 0x1a80, 0x1a90, 0x1b50, 0x1bb0, 0x1c40, 0x1c50,
   0xa620, 0xa8d0, 0xa900, 0xa9d0, 0xa9f0, 0xaa50, 0xabf0, 0xff10,
   0x104a0, 0x10d30, 0x11066, 0x110f0, 0x11136, 0x111d0, 0x112f0, 0x11450,
   0x114d0, 0x11650, 0x116c0, 0x11730, 0x118e0, 0x11950, 0x11c50, 0x11d50,
   0x11da0, 0x16a60, 0x16ac0, 0x16b50, 0x1d7ce, 0x1d7d8, 0x1d7e2, 0x1d7ec,
   0x1d7f6, 0x1e140, 0x1e2f0, 0x1e950, 0x1fbf0]

/-- `Py_UNICODE_TODECIMAL`: the decimal value of a Unicode decimal digit
(category Nd), `none` for every other character. -/
def digitVal? (c : Char) : Option ℕ :=
  match ndRangeStarts.find? (fun s => decide (s ≤ c.toNat) && decide (c.toNat ≤ s + 9)) with
  | some s => some (c.toNat - s)
  | none => none

/-- The tail of a Python integer digit sequence, after its leading digit:
either ends, or continues with a digit, or with a single underscore that
must be followed by a digit (`int()` rejects leading, trailing and doubled
underscores). -/
def pyDigitsTail : List Char → Bool
  | [] => true
  | ['_'] => false
  | '_' :: c :: rest => (digitVal? c).isSome && pyDigitsTail rest
  | c :: rest => (digitVal? c).isSome && pyDigitsTail rest

/-- A valid Python integer digit sequence after the optional sign: a
non-empty sequence starting with a decimal digit in which a single
underscore may stand between two digits. -/
def pyDigits : List Char → Bool
  | [] => false
  | c :: rest => (digitVal? c).isSome && pyDigitsTail rest

/-- Numeric value of a validated digit sequence: underscores contribute
nothing, each digit its decimal value. -/
def digitsVal (l : List Char) : ℕ :=
  l.foldl (fun a c =>
    match digitVal? c with
    | some d => a * 10 + d
    | none => a) 0

/-- `int(s)` for a string: strips surrounding whitespace, accepts an
optional sign followed by Unicode decimal digits (single underscores
allowed between digits), and returns `none` where CPython raises
`ValueError`. -/
def pyInt (s : String) : Option ℤ :=
  match stripChars s.data with
  | '+' :: rest => if pyDigits rest then some (digitsVal rest) else none
  | '-' :: rest => if pyDigits rest then some (-(digitsVal rest : ℤ)) else none
  | rest => if pyDigits rest then some (digitsVal rest) else none

/-- `[int(h.strip()) for h in TARGET_HOURS.split(",") if h.strip()]` with the
surrounding `try/except ValueError: targets = []`: the non-empty-after-strip
tokens are parsed; if any parse fails the whole list collapses to `[]`. -/
def parseTargets (cfg : String) : List ℤ :=
  let toks := ((pySplitComma cfg).map pyStrip).filter (fun t => t ≠ "")
  if toks.all (fun t => (pyInt t).isSome) then toks.filterMap pyInt else []

/-- The triple returned by `schedule_allows_sending()`. -/
structure GuardResult where
  allowed : Bool
  dateStr : String
  hour : ℕ
deriving DecidableEq

/-- `schedule_allows_sending()`.  If `FORCE_SEND` is set or `TARGET_HOURS`
strips to the empty string, it returns `(True, date.today().isoformat(),
datetime.utcnow().hour)` — local date, UTC hour.  Otherwise it reads the
configured-timezone clock and returns `(hour in targets, tz date, tz hour)`. -/
def scheduleAllows (force : Bool) (cfg : String) (clk : Clocks) : GuardResult :=
  if force || (pyStrip cfg = "") then
    ⟨true, clk.localDate, clk.utcHour⟩
  else
    ⟨decide ((clk.tzHour : ℤ) ∈ parseTargets cfg), clk.tzDate, clk.tzHour⟩

/-- `m.get(k, d)` on the `sent_hours` dictionary (first matching key; real
Python dicts have unique keys). -/
def lookupD : List (String × Finset ℕ) → String → Finset ℕ → Finset ℕ
  | [], _, d => d
  | p :: rest, k, d => if p.1 = k then p.2 else lookupD rest k d

/-- `m[k] = v` on the `sent_hours` dictionary: replace the value at an
existing key (keeping its position, as Python dicts do), else append the new
binding at the end. -/
def setKey : List (String × Finset ℕ) → String → Finset ℕ → List (String × Finset ℕ)
  | [], k, v => [(k, v)]
  | p :: rest, k, v => if p.1 = k then (k, v) :: rest else p :: setKey rest k v

/-- The net send decision of `main`: the guard's verdict composed with the
two early-return checks `if not allowed and not FORCE_SEND` and
`if hour in hours_today and not FORCE_SEND`. `true` means the run proceeds
to load the vocabulary and send. -/
def sendPermitted (force : Bool) (cfg : String) (clk : Clocks)
    (sentHours : List (String × Finset ℕ)) : Bool :=
  let g := scheduleAllows force cfg clk
  let hoursToday := lookupD sentHours g.dateStr ∅
  (g.allowed || force) && (!(decide (g.hour ∈ hoursToday)) || force)

/-- `available_idxs = [i for i in range(total) if i not in used]` in
`pick_words`. -/
def availableIdxs (total : ℕ) (used : Finset ℕ) : List ℕ :=
  (List.range total).filter (fun i => decide (i ∉ used))

/-- The reset step of `pick_words`: if fewer than `n` indices are available
the used-set is cleared and all indices become available again; the result is
the pair (used-set after reset, index pool `random.sample` draws from). -/
def pickAvail (total n : ℕ) (used : Finset ℕ) : Finset ℕ × List ℕ :=
  if (availableIdxs total used).length < n then
    (∅, List.range total)
  else
    (used, availableIdxs total used)

/-- The contract of `random.sample(population, n)`: it returns `n` distinct
elements of the population (in the random order in which they were drawn);
it raises `ValueError` — never satisfies this contract — when
`n > len(population)`. -/
def validSample (pool : List ℕ) (n : ℕ) (chosen : List ℕ) : Prop :=
  chosen.length = n ∧ chosen.Nodup ∧ ∀ i ∈ chosen, i ∈ pool

instance (pool : List ℕ) (n : ℕ) (chosen : List ℕ) :
    Decidable (validSample pool n chosen) := by
  unfold validSample
  infer_instance

/-- `pick_words(vocab, state, n)`.  The random draw is passed in as `chosen`
(the list returned by `random.sample`) and today's local date (`date.today()`)
as `today`.  Mirrors the source: computes the available indices, resets the
used-set when fewer than `n` remain, adds the chosen indices to the used-set,
stores the new used-set and `last_sent = str(date.today())` in the state, and
returns the entries at the chosen indices in draw order. -/
def pickWords (vocab : List VEntry) (st : PyState) (n : ℕ) (chosen : List ℕ)
    (today : String) : List VEntry × PyState :=
  let used1 := (pickAvail vocab.length n st.used).1
  let newUsed := chosen.foldl (fun s i => insert i s) used1
  (chosen.map (fun i => vocab.getD i default),
   { st with used := newUsed, last_sent := some today })

/-- One line of `format_message`'s loop body:
`f"\n{i}. {es} [{pos}] — {de}\n   ↪ Ej.: {ex}"`. -/
def entryLine (i : ℕ) (w : VEntry) : String :=
  "\n" ++ toString i ++ ". " ++ w.es ++ " [" ++ w.pos ++ "] — " ++ w.de ++
    "\n   ↪ Ej.: " ++ w.«example»

/-- `format_message(words)`, with `date.today().isoformat()` passed in as
`today`: a header line with the date, the numbered entry lines (numbering
starts at 1, input order), a closing line, joined with `"\n"`. -/
def formatMessage (words : List VEntry) (today : String) : String :=
  String.intercalate "\n"
    (("📚 Palabras del día (" ++ today ++ "):") ::
      (words.enum.map (fun p => entryLine (p.1 + 1) p.2) ++ ["\n¡Ánimo! 💪"]))

/-- The start positions (in characters) at which `pat` occurs as a
contiguous substring of `s`. -/
def occurrences (pat s : List Char) : List ℕ :=
  (List.range (s.length + 1)).filter (fun i => pat.isPrefixOf (s.drop i))

/-- `a` occurs in `s` at some position strictly before a position at which
`b` occurs. -/
def occursBefore (a b s : List Char) : Prop :=
  ∃ i ∈ occurrences a s, ∃ j ∈ occurrences b s, i < j

instance (a b s : List Char) : Decidable (occursBefore a b s) := by
  unfold occursBefore
  infer_instance

/-- The modelled outcome of one delivery backend call: `skipped` when its
credentials are absent (the function prints and returns), `success` when the
HTTP call returns, `raised` when `urllib.request.urlopen` raises. -/
inductive Outcome
  | skipped
  | success
  | raised
deriving DecidableEq

/-- How the process run ends: `ok` — `main` returns and the process exits 0;
`fatal` — `sys.exit(1)`; `crashed` — an unhandled exception terminates the
process with a non-zero status. -/
inductive ExitCode
  | ok
  | fatal
  | crashed
deriving DecidableEq

/-- The observable result of one run of `main`: the exit behaviour, the
content of the persisted state file after the run (unchanged unless
`save_state` was reached), and whether each backend's send function was
invoked. -/
structure RunResult where
  exit : ExitCode
  finalState : PyState
  tgAttempted : Bool
  twAttempted : Bool
deriving DecidableEq

/-- Everything a run of `main` reads from its environment: configuration
(`FORCE_SEND`, `TARGET_HOURS`, `N_WORDS`), the clocks, the loaded state file,
the loaded vocabulary list, the random draw, and the outcome each delivery
backend would have if invoked. -/
structure Env where
  force : Bool
  cfg : String
  clk : Clocks
  state0 : PyState
  vocab : List VEntry
  nWords : ℕ
  chosen : List ℕ
  tg : Outcome
  tw : Outcome
deriving DecidableEq

/-- `main()`.  Follows the source line by line: consult the guard, look up
today's sent hours, return on the two guard checks, `sys.exit(1)` when the
vocabulary is smaller than `N_WORDS`, otherwise pick words, attempt the
Telegram send then the Twilio send (an exception in either aborts the run
before anything after it), record the hour and save the state. -/
def mainRun (e : Env) : RunResult :=
  let g := scheduleAllows e.force e.cfg e.clk
  let hoursToday := lookupD e.state0.sent_hours g.dateStr ∅
  if !g.allowed && !e.force then
    ⟨.ok, e.state0, false, false⟩
  else if decide (g.hour ∈ hoursToday) && !e.force then
    ⟨.ok, e.state0, false, false⟩
  else if e.vocab.length < e.nWords then
    ⟨.fatal, e.state0, false, false⟩
  else
    let st1 := (pickWords e.vocab e.state0 e.nWords e.chosen e.clk.localDate).2
    if e.tg = .raised then
      ⟨.crashed, e.state0, true, false⟩
    else if e.tw = .raised then
      ⟨.crashed, e.state0, true, true⟩
    else
      let st2 := { st1 with
        sent_hours := setKey st1.sent_hours g.dateStr (insert g.hour hoursToday) }
      ⟨.ok, st2, true, true⟩

/-- The conjunction of the three conditions under which `main` reaches the
delivery section: neither guard check returns early and the vocabulary is
large enough. -/
def reachesDelivery (e : Env) : Prop :=
  ¬((scheduleAllows e.force e.cfg e.clk).allowed = false ∧ e.force = false) ∧
  ¬((scheduleAllows e.force e.cfg e.clk).hour ∈
      lookupD e.state0.sent_hours (scheduleAllows e.force e.cfg e.clk).dateStr ∅ ∧
    e.force = false) ∧
  e.nWords ≤ e.vocab.length

instance (e : Env) : Decidable (reachesDelivery e) := by
  unfold reachesDelivery
  infer_instance

/-- The state that `save_state(STATE_JSON, state)` writes on the success
path: the state as mutated by `pick_words`, with the current hour recorded
under today's date key in `sent_hours`. -/
def savedState (e : Env) : PyState :=
  let g := scheduleAllows e.force e.cfg e.clk
  let hoursToday := lookupD e.state0.sent_hours g.dateStr ∅
  let st1 := (pickWords e.vocab e.state0 e.nWords e.chosen e.clk.localDate).2
  { st1 with sent_hours := setKey st1.sent_hours g.dateStr (insert g.hour hoursToday) }

/-! ### Concrete instances used by witnesses and counterexamples -/

/-- The single entry of the spec's formatter test case. -/
def eOla : VEntry := ⟨"ola", "interj", "hi", "¡Ola!"⟩

def eCasa : VEntry := ⟨"casa", "f", "Haus", "La casa es grande."⟩

def eLuz : VEntry := ⟨"luz", "f", "Licht", "Hay poca luz."⟩

/-- A three-entry vocabulary list. -/
def vocab3 : List VEntry := [eOla, eCasa, eLuz]

/-- A state in which index 0 has been used; with `n = 2` and three entries no
reset occurs. -/
def stNoReset : PyState := ⟨{0}, none, []⟩

/-- A run environment in which the Telegram send raises an exception while
Twilio is configured and would succeed. -/
def envTgRaises : Env :=
  ⟨true, "", uniClock "2024-01-01" 9, ⟨∅, none, []⟩, vocab3, 3, [0, 1, 2],
    Outcome.raised, Outcome.success⟩

/-- A run environment in which the Telegram send succeeds and the Twilio send
raises an exception. -/
def envTwRaises : Env :=
  ⟨true, "", uniClock "2024-01-01" 9, ⟨∅, none, []⟩, vocab3, 3, [0, 1, 2],
    Outcome.success, Outcome.raised⟩

/-- A run environment in which both sends succeed and the state file holds a
past date's sent hours. -/
def envSave : Env :=
  ⟨true, "", uniClock "2024-01-01" 9, ⟨∅, none, [("2023-12-31", {9})]⟩, vocab3, 3,
    [0, 1, 2], Outcome.success, Outcome.success⟩

/-! ### Helper lemmas -/

/-- `int("_1")` raises `ValueError` in CPython: an underscore may only stand
between two digits. -/
theorem pyInt_leading_underscore : pyInt "_1" = none := by decide

/-- `int("1_")` raises `ValueError` in CPython. -/
theorem pyInt_trailing_underscore : pyInt "1_" = none := by decide

/-- `int("1__2")` raises `ValueError` in CPython. -/
theorem pyInt_doubled_underscore : pyInt "1__2" = none := by decide

/-- `int("1_2_3") == 123` in CPython. -/
theorem pyInt_grouped_digits : pyInt "1_2_3" = some 123 := by decide

/-- `int("٩") == 9` in CPython: ARABIC-INDIC DIGIT NINE is a Unicode decimal
digit. -/
theorem pyInt_arabic_indic_nine : pyInt "٩" = some 9 := by decide

/-- `int("１２") == 12` in CPython: fullwidth digits are Unicode decimal
digits. -/
theorem pyInt_fullwidth_digits : pyInt "１２" = some 12 := by decide

/-- `int(" 9 ") == 9` in CPython: no-break space is stripped. -/
theorem pyInt_nbsp_stripped : pyInt " 9 " = some 9 := by decide

/-- `int("²")` raises `ValueError` in CPython: SUPERSCRIPT TWO is numeric
but not a decimal digit (not category Nd). -/
theorem pyInt_superscript_rejected : pyInt "²" = none := by decide

theorem availableIdxs_length_le (total : ℕ) (used : Finset ℕ) :
    (availableIdxs total used).length ≤ total := by
  have h := List.length_filter_le (fun i => decide (i ∉ used)) (List.range total)
  simpa [availableIdxs] using h

theorem mem_availableIdxs {total : ℕ} {used : Finset ℕ} {i : ℕ}
    (h : i ∈ availableIdxs total used) : i ∉ used := by
  simp [availableIdxs] at h
  exact h.2

theorem lookupD_setKey_self (m : List (String × Finset ℕ)) (k : String)
    (v d : Finset ℕ) : lookupD (setKey m k v) k d = v := by
  induction m with
  | nil => simp [setKey, lookupD]
  | cons p rest ih =>
    by_cases hp : p.1 = k
    · simp [setKey, lookupD, hp]
    · simp [setKey, lookupD, hp, ih]

theorem lookupD_setKey_ne (m : List (String × Finset ℕ)) {k k2 : String}
    (hne : k2 ≠ k) (v d : Finset ℕ) :
    lookupD (setKey m k v) k2 d = lookupD m k2 d := by
  induction m with
  | nil => simp [setKey, lookupD, Ne.symm hne]
  | cons p rest ih =>
    by_cases hp : p.1 = k
    · simp [setKey, lookupD, hp, Ne.symm hne]
    · simp only [setKey, hp, if_false, lookupD]
      by_cases hp2 : p.1 = k2
      · simp [lookupD, hp2]
      · simp [lookupD, hp2, ih]

theorem foldl_insert_toFinset (chosen : List ℕ) (u : Finset ℕ) :
    chosen.foldl (fun s i => insert i s) u = u ∪ chosen.toFinset := by
  induction chosen generalizing u with
  | nil => simp
  | cons c cs ih =>
    simp only [List.foldl_cons, ih, List.toFinset_cons]
    rw [Finset.union_insert, Finset.insert_union]

/-- Once a run reaches the delivery section, its result is decided by the two
backend outcomes alone: a Telegram exception aborts before the Twilio call, a
Twilio exception aborts before `save_state`, and otherwise the updated state
is saved. -/
theorem mainRun_delivery (e : Env) (hr : reachesDelivery e) :
    mainRun e =
      if e.tg = Outcome.raised then ⟨ExitCode.crashed, e.state0, true, false⟩
      else if e.tw = Outcome.raised then ⟨ExitCode.crashed, e.state0, true, true⟩
      else ⟨ExitCode.ok, savedState e, true, true⟩ := by
  obtain ⟨h1, h2, h3⟩ := hr
  have hc1 : ¬((!(scheduleAllows e.force e.cfg e.clk).allowed && !e.force) = true) := by
    simpa using h1
  have hc2 : ¬((decide ((scheduleAllows e.force e.cfg e.clk).hour ∈
      lookupD e.state0.sent_hours (scheduleAllows e.force e.cfg e.clk).dateStr ∅) &&
      !e.force) = true) := by
    simpa using h2
  have hc3 : ¬(e.vocab.length < e.nWords) := Nat.not_lt.mpr h3
  simp only [mainRun, savedState]
  rw [if_neg hc1, if_neg hc2, if_neg hc3]

/-! ### Claims -/

/-- Claim C1: with a single wall clock, the Send-Guard composed with the two
early-return checks of `main` permits sending iff `FORCE_SEND` is set, or the
schedule gate is satisfied (the `TARGET_HOURS` configuration strips to empty
or the hour is among the parsed targets) and the hour is not already among
today's sent hours; and each literal row of the spec's truth table holds:
targets 9,15,21 at hour 15 with nothing sent → allowed; the same with hour 15
already sent → blocked; empty targets at any hour → allowed; target 9 at
hour 10 → blocked; target 9 at hour 10 with force → allowed. -/
theorem sendGuard_net_decision :
    (∀ (force : Bool) (cfg d : String) (h : ℕ) (sent : List (String × Finset ℕ)),
      sendPermitted force cfg (uniClock d h) sent =
        (force || ((decide (pyStrip cfg = "") || decide ((h : ℤ) ∈ parseTargets cfg)) &&
          !(decide (h ∈ lookupD sent d ∅))))) ∧
    sendPermitted false "9,15,21" (uniClock "2024-01-01" 15) [] = true ∧
    sendPermitted false "9,15,21" (uniClock "2024-01-01" 15) [("2024-01-01", {15})] = false ∧
    (∀ h : ℕ, sendPermitted false "" (uniClock "2024-01-01" h) [] = true) ∧
    sendPermitted false "9" (uniClock "2024-01-01" 10) [] = false ∧
    sendPermitted true "9" (uniClock "2024-01-01" 10) [] = true := by
  refine ⟨?_, by decide, by decide, ?_, by decide, by decide⟩
  · intro force cfg d h sent
    cases force with
    | true => simp [sendPermitted, scheduleAllows, uniClock]
    | false =>
      by_cases hc : pyStrip cfg = "" <;>
        simp [sendPermitted, scheduleAllows, uniClock, hc]
  · intro h
    simp [sendPermitted, scheduleAllows, uniClock, lookupD, pyStrip, stripChars,
      isPySpace]

/-- Claim C2: when fewer than `n` indices are available the Selector resets
the used-set to empty and makes all indices available, and `random.sample`'s
precondition (`n ≤` pool size) holds exactly when the whole list has at least
`n` entries — so the Selector never fails due to exhaustion, only due to a
too-small list. -/
theorem selector_reset_no_exhaustion (total n : ℕ) (used : Finset ℕ) :
    ((availableIdxs total used).length < n →
      pickAvail total n used = (∅, List.range total)) ∧
    (n ≤ (pickAvail total n used).2.length ↔ n ≤ total) := by
  constructor
  · intro h
    simp [pickAvail, h]
  · unfold pickAvail
    split
    · rename_i h
      simp
    · rename_i h
      push_neg at h
      constructor
      · intro _
        exact le_trans h (availableIdxs_length_le total used)
      · intro _
        exact h

theorem selector_reset_no_exhaustion_witness :
    ((availableIdxs 3 ({0, 1} : Finset ℕ)).length < 2 ∧
      pickAvail 3 2 ({0, 1} : Finset ℕ) = (∅, List.range 3)) ∧
    (2 ≤ (pickAvail 3 2 ({0, 1} : Finset ℕ)).2.length ↔ 2 ≤ 3) := by
  refine ⟨⟨by decide, (selector_reset_no_exhaustion 3 2 {0, 1}).1 (by decide)⟩,
    (selector_reset_no_exhaustion 3 2 {0, 1}).2⟩

/-- Claim C3 (amended): for every valid `random.sample` draw the Selector
returns exactly the `n` entries at the `n` distinct chosen indices in draw
order, and the returned used-set is the post-reset used-set joined with the
chosen indices: old used ∪ chosen with size `|used| + n` when no reset
occurred, but exactly the chosen set, of size `n`, immediately after a reset
(the reset clears the old used-set before the union). -/
theorem selector_returns_n_and_updates_used (vocab : List VEntry) (st : PyState)
    (n : ℕ) (chosen : List ℕ) (today : String)
    (hs : validSample (pickAvail vocab.length n st.used).2 n chosen) :
    (pickWords vocab st n chosen today).1 =
      chosen.map (fun i => vocab.getD i default) ∧
    (pickWords vocab st n chosen today).1.length = n ∧
    (pickWords vocab st n chosen today).2.used =
      (pickAvail vocab.length n st.used).1 ∪ chosen.toFinset ∧
    (¬ (availableIdxs vocab.length st.used).length < n →
      (pickWords vocab st n chosen today).2.used = st.used ∪ chosen.toFinset ∧
      (pickWords vocab st n chosen today).2.used.card = st.used.card + n) ∧
    ((availableIdxs vocab.length st.used).length < n →
      (pickWords vocab st n chosen today).2.used = chosen.toFinset ∧
      (pickWords vocab st n chosen today).2.used.card = n) := by
  obtain ⟨hlen, hnodup, hmem⟩ := hs
  have hused : (pickWords vocab st n chosen today).2.used =
      (pickAvail vocab.length n st.used).1 ∪ chosen.toFinset := by
    simp [pickWords, foldl_insert_toFinset]
  have hcard : chosen.toFinset.card = n := by
    rw [List.toFinset_card_of_nodup hnodup, hlen]
  refine ⟨rfl, ?_, hused, ?_, ?_⟩
  · simp [pickWords, hlen]
  · intro hnr
    have hpa : pickAvail vocab.length n st.used =
        (st.used, availableIdxs vocab.length st.used) := by
      simp [pickAvail, hnr]
    have hdisj : Disjoint st.used chosen.toFinset := by
      rw [Finset.disjoint_right]
      intro a ha
      rw [List.mem_toFinset] at ha
      have hpool := hmem a ha
      rw [hpa] at hpool
      exact mem_availableIdxs hpool
    constructor
    · rw [hused, hpa]
    · rw [hused, hpa]
      simp only [Finset.card_union_of_disjoint hdisj, hcard]
  · intro hr
    have hpa : pickAvail vocab.length n st.used = (∅, List.range vocab.length) := by
      simp [pickAvail, hr]
    constructor
    · rw [hused, hpa]
      simp
    · rw [hused, hpa]
      simp [hcard]

theorem selector_returns_n_and_updates_used_witness :
    validSample (pickAvail vocab3.length 2 stNoReset.used).2 2 [1, 2] ∧
    ((pickWords vocab3 stNoReset 2 [1, 2] "2024-01-01").1 =
        [1, 2].map (fun i => vocab3.getD i default) ∧
      (pickWords vocab3 stNoReset 2 [1, 2] "2024-01-01").1.length = 2 ∧
      (pickWords vocab3 stNoReset 2 [1, 2] "2024-01-01").2.used =
        (pickAvail vocab3.length 2 stNoReset.used).1 ∪ ([1, 2] : List ℕ).toFinset ∧
      (¬ (availableIdxs vocab3.length stNoReset.used).length < 2 →
        (pickWords vocab3 stNoReset 2 [1, 2] "2024-01-01").2.used =
          stNoReset.used ∪ ([1, 2] : List ℕ).toFinset ∧
        (pickWords vocab3 stNoReset 2 [1, 2] "2024-01-01").2.used.card =
          stNoReset.used.card + 2) ∧
      ((availableIdxs vocab3.length stNoReset.used).length < 2 →
        (pickWords vocab3 stNoReset 2 [1, 2] "2024-01-01").2.used =
          ([1, 2] : List ℕ).toFinset ∧
        (pickWords vocab3 stNoReset 2 [1, 2] "2024-01-01").2.used.card = 2)) :=
  ⟨by decide,
    selector_returns_n_and_updates_used vocab3 stNoReset 2 [1, 2] "2024-01-01"
      (by decide)⟩

/-- Claim C3, counterexample to the claim as stated: after a reset (three
entries, indices 0 and 1 used, two more requested) the returned used-set is
the chosen set alone, not old used ∪ chosen. -/
theorem selector_newUsed_union_counterexample :
    validSample (pickAvail vocab3.length 2 ({0, 1} : Finset ℕ)).2 2 [0, 2] ∧
    (pickWords vocab3 ⟨{0, 1}, none, []⟩ 2 [0, 2] "2024-01-01").2.used ≠
      ({0, 1} : Finset ℕ) ∪ ([0, 2] : List ℕ).toFinset := by
  decide

/-- Claim C4 (amended): in a run that reaches the delivery step, the Telegram
send is always attempted; a backend that does not raise (it is skipped for
missing credentials or its call returns) blocks nothing — in particular with
neither backend raising the run attempts both and persists the updated
state — but an unhandled exception in the Telegram send prevents both the
Twilio attempt and the state save, and an unhandled exception in the Twilio
send prevents the state save. -/
theorem delivery_outcome_isolation (e : Env) (hr : reachesDelivery e) :
    (mainRun e).tgAttempted = true ∧
    (e.tg = Outcome.raised →
      (mainRun e).twAttempted = false ∧ (mainRun e).finalState = e.state0 ∧
      (mainRun e).exit = ExitCode.crashed) ∧
    (e.tg ≠ Outcome.raised → (mainRun e).twAttempted = true) ∧
    (e.tg ≠ Outcome.raised → e.tw = Outcome.raised →
      (mainRun e).finalState = e.state0 ∧ (mainRun e).exit = ExitCode.crashed) ∧
    (e.tg ≠ Outcome.raised → e.tw ≠ Outcome.raised →
      (mainRun e).exit = ExitCode.ok ∧ (mainRun e).finalState = savedState e) := by
  rw [mainRun_delivery e hr]
  refine ⟨?_, ?_, ?_, ?_, ?_⟩ <;>
    cases htg : e.tg <;> cases htw : e.tw <;> simp

theorem delivery_outcome_isolation_witness :
    reachesDelivery envSave ∧
    ((mainRun envSave).tgAttempted = true ∧
      (envSave.tg = Outcome.raised →
        (mainRun envSave).twAttempted = false ∧
        (mainRun envSave).finalState = envSave.state0 ∧
        (mainRun envSave).exit = ExitCode.crashed) ∧
      (envSave.tg ≠ Outcome.raised → (mainRun envSave).twAttempted = true) ∧
      (envSave.tg ≠ Outcome.raised → envSave.tw = Outcome.raised →
        (mainRun envSave).finalState = envSave.state0 ∧
        (mainRun envSave).exit = ExitCode.crashed) ∧
      (envSave.tg ≠ Outcome.raised → envSave.tw ≠ Outcome.raised →
        (mainRun envSave).exit = ExitCode.ok ∧
        (mainRun envSave).finalState = savedState envSave)) :=
  ⟨by decide, delivery_outcome_isolation envSave (by decide)⟩

/-- Claim C4, counterexample to the claim as stated: in a run whose Telegram
send raises while Twilio is configured to succeed, the Twilio send is never
attempted and the state file keeps its old content — the first backend's
failure does block the second delivery and the persistence step. -/
theorem delivery_failure_blocks_counterexample :
    reachesDelivery envTgRaises ∧
    envTgRaises.tw ≠ Outcome.raised ∧
    (mainRun envTgRaises).twAttempted = false ∧
    (mainRun envTgRaises).finalState = envTgRaises.state0 := by
  decide

/-- Claim C5 (amended): in a run that passes both guard checks, if the loaded
vocabulary list is smaller than the requested count the process exits
non-zero (`sys.exit(1)`) with no send attempted and the persisted state
untouched; if the list is large enough and neither delivery raises an
unhandled exception, the run exits zero after attempting both deliveries and
persisting the updated state. -/
theorem exit_behavior (e : Env)
    (h1 : ¬((scheduleAllows e.force e.cfg e.clk).allowed = false ∧ e.force = false))
    (h2 : ¬((scheduleAllows e.force e.cfg e.clk).hour ∈
        lookupD e.state0.sent_hours (scheduleAllows e.force e.cfg e.clk).dateStr ∅ ∧
      e.force = false)) :
    (e.vocab.length < e.nWords →
      (mainRun e).exit = ExitCode.fatal ∧ (mainRun e).finalState = e.state0 ∧
      (mainRun e).tgAttempted = false ∧ (mainRun e).twAttempted = false) ∧
    (e.nWords ≤ e.vocab.length → e.tg ≠ Outcome.raised → e.tw ≠ Outcome.raised →
      (mainRun e).exit = ExitCode.ok ∧ (mainRun e).tgAttempted = true ∧
      (mainRun e).twAttempted = true ∧ (mainRun e).finalState = savedState e) := by
  have hc1 : ¬((!(scheduleAllows e.force e.cfg e.clk).allowed && !e.force) = true) := by
    simpa using h1
  have hc2 : ¬((decide ((scheduleAllows e.force e.cfg e.clk).hour ∈
      lookupD e.state0.sent_hours (scheduleAllows e.force e.cfg e.clk).dateStr ∅) &&
      !e.force) = true) := by
    simpa using h2
  constructor
  · intro hlt
    simp only [mainRun]
    rw [if_neg hc1, if_neg hc2, if_pos hlt]
    exact ⟨rfl, rfl, rfl, rfl⟩
  · intro hge htg htw
    rw [mainRun_delivery e ⟨h1, h2, hge⟩]
    rw [if_neg htg, if_neg htw]
    exact ⟨rfl, rfl, rfl, rfl⟩

theorem exit_behavior_witness :
    ¬((scheduleAllows envSave.force envSave.cfg envSave.clk).allowed = false ∧
      envSave.force = false) ∧
    ¬((scheduleAllows envSave.force envSave.cfg envSave.clk).hour ∈
        lookupD envSave.state0.sent_hours
          (scheduleAllows envSave.force envSave.cfg envSave.clk).dateStr ∅ ∧
      envSave.force = false) ∧
    ((envSave.vocab.length < envSave.nWords →
      (mainRun envSave).exit = ExitCode.fatal ∧
      (mainRun envSave).finalState = envSave.state0 ∧
      (mainRun envSave).tgAttempted = false ∧
      (mainRun envSave).twAttempted = false) ∧
    (envSave.nWords ≤ envSave.vocab.length → envSave.tg ≠ Outcome.raised →
      envSave.tw ≠ Outcome.raised →
      (mainRun envSave).exit = ExitCode.ok ∧ (mainRun envSave).tgAttempted = true ∧
      (mainRun envSave).twAttempted = true ∧
      (mainRun envSave).finalState = savedState envSave)) :=
  ⟨by decide, by decide, exit_behavior envSave (by decide) (by decide)⟩

/-- Claim C5, counterexample to the claim as stated: a run with a large
enough vocabulary whose Twilio send raises an unhandled exception terminates
abnormally (non-zero exit), not with the claimed zero exit. -/
theorem exit_zero_counterexample :
    envTwRaises.nWords ≤ envTwRaises.vocab.length ∧
    (mainRun envTwRaises).exit = ExitCode.crashed ∧
    (mainRun envTwRaises).exit ≠ ExitCode.ok := by
  decide

/-- Claim C6 (amended): the Selector mutates no component of the state other
than the used-set and the last-sent marker: `sent_hours` is left unchanged,
but `last_sent` is overwritten with today's date (`state["last_sent"] =
str(date.today())` inside `pick_words`); persistence remains the caller's
responsibility. -/
theorem selector_frame (vocab : List VEntry) (st : PyState) (n : ℕ)
    (chosen : List ℕ) (today : String) :
    (pickWords vocab st n chosen today).2.sent_hours = st.sent_hours ∧
    (pickWords vocab st n chosen today).2.last_sent = some today :=
  ⟨rfl, rfl⟩

/-- Claim C6, counterexample to the claim as stated: the Selector does not
leave the last-sent date marker unchanged — picking words on 2024-01-01 from
a state whose marker reads 2020-01-01 overwrites the marker. -/
theorem selector_last_sent_counterexample :
    (pickWords vocab3 ⟨∅, some "2020-01-01", []⟩ 1 [0] "2024-01-01").2.last_sent ≠
      (⟨∅, some "2020-01-01", []⟩ : PyState).last_sent := by
  decide

/-- Claim C7 (amended): for the single entry `ola` and date `2024-01-01` the
formatter's output contains both the literal entry substring
`1. ola [interj] — hi` and the date string `2024-01-01`, with the date
occurring before the entry substring (the date sits in the header line that
precedes the numbered entries). -/
theorem formatter_contains_date_before_entry :
    occursBefore "2024-01-01".data "1. ola [interj] — hi".data
      (formatMessage [eOla] "2024-01-01").data := by
  decide

/-- Claim C7, counterexample to the claim as stated: the entry substring does
not occur before the date string anywhere in the output. -/
theorem formatter_order_counterexample :
    ¬ occursBefore "1. ola [interj] — hi".data "2024-01-01".data
      (formatMessage [eOla] "2024-01-01").data := by
  decide

/-- Claim C8: across every run, the set of hours recorded under the current
date key only grows (the old set is a subset of the new one), and the entry
of every other date key in `sent_hours` is left exactly as it was — past
dates are retained, nothing is pruned. -/
theorem sent_hours_monotone (e : Env) :
    lookupD e.state0.sent_hours (scheduleAllows e.force e.cfg e.clk).dateStr ∅ ⊆
      lookupD (mainRun e).finalState.sent_hours
        (scheduleAllows e.force e.cfg e.clk).dateStr ∅ ∧
    ∀ d2, d2 ≠ (scheduleAllows e.force e.cfg e.clk).dateStr →
      lookupD (mainRun e).finalState.sent_hours d2 ∅ =
        lookupD e.state0.sent_hours d2 ∅ := by
  simp only [mainRun]
  split
  · exact ⟨Finset.Subset.refl _, fun d2 _ => rfl⟩
  · split
    · exact ⟨Finset.Subset.refl _, fun d2 _ => rfl⟩
    · split
      · exact ⟨Finset.Subset.refl _, fun d2 _ => rfl⟩
      · split
        · exact ⟨Finset.Subset.refl _, fun d2 _ => rfl⟩
        · split
          · exact ⟨Finset.Subset.refl _, fun d2 _ => rfl⟩
          · have hsh : (pickWords e.vocab e.state0 e.nWords e.chosen
                e.clk.localDate).2.sent_hours = e.state0.sent_hours := rfl
            constructor
            · show lookupD e.state0.sent_hours _ ∅ ⊆ lookupD (setKey _ _ _) _ ∅
              rw [hsh, lookupD_setKey_self]
              exact Finset.subset_insert _ _
            · intro d2 hne
              show lookupD (setKey _ _ _) d2 ∅ = _
              rw [hsh, lookupD_setKey_ne _ hne]

theorem sent_hours_monotone_witness :
    lookupD envSave.state0.sent_hours
        (scheduleAllows envSave.force envSave.cfg envSave.clk).dateStr ∅ ⊆
      lookupD (mainRun envSave).finalState.sent_hours
        (scheduleAllows envSave.force envSave.cfg envSave.clk).dateStr ∅ ∧
    lookupD (mainRun envSave).finalState.sent_hours "2023-12-31" ∅ =
      lookupD envSave.state0.sent_hours "2023-12-31" ∅ :=
  ⟨(sent_hours_monotone envSave).1,
    (sent_hours_monotone envSave).2 "2023-12-31" (by decide)⟩

/-- Claim C9: a non-empty `TARGET_HOURS` string containing a token that is
not a valid integer makes the whole parsed target list collapse to `[]`
(the `except ValueError` branch), so without force the schedule gate is
blocked at every hour — the opposite of the always-allowed behaviour of an
empty or whitespace-only configuration string. -/
theorem invalid_target_hours_blocks (cfg : String)
    (hne : pyStrip cfg ≠ "")
    (htok : ∃ t ∈ ((pySplitComma cfg).map pyStrip).filter (fun t => t ≠ ""),
      pyInt t = none) :
    parseTargets cfg = [] ∧
    (∀ clk : Clocks, (scheduleAllows false cfg clk).allowed = false) ∧
    (∀ cfg2 : String, pyStrip cfg2 = "" → ∀ clk : Clocks,
      (scheduleAllows false cfg2 clk).allowed = true) := by
  obtain ⟨t, htmem, htnone⟩ := htok
  have hall : ¬((((pySplitComma cfg).map pyStrip).filter
      (fun t => t ≠ "")).all (fun t => (pyInt t).isSome) = true) := by
    intro hall
    rw [List.all_eq_true] at hall
    have hsome := hall t htmem
    rw [htnone] at hsome
    simp at hsome
  have hpt : parseTargets cfg = [] := by
    simp only [parseTargets]
    rw [if_neg hall]
  refine ⟨hpt, ?_, ?_⟩
  · intro clk
    simp [scheduleAllows, hne, hpt]
  · intro cfg2 h2 clk
    simp [scheduleAllows, h2]

theorem invalid_target_hours_blocks_witness :
    pyStrip "9,x" ≠ "" ∧
    parseTargets "9,x" = [] ∧
    (scheduleAllows false "9,x" (uniClock "2024-01-01" 9)).allowed = false ∧
    (scheduleAllows false "  " (uniClock "2024-01-01" 9)).allowed = true := by
  have h := invalid_target_hours_blocks "9,x" (by decide) ⟨"x", by decide, by decide⟩
  exact ⟨by decide, h.1, h.2.1 _, h.2.2 "  " (by decide) _⟩

/-- Claim C10: when `FORCE_SEND` is set or `TARGET_HOURS` strips to empty,
the guard's (date, hour) pair is the system-local date and the UTC hour —
two clock environments agreeing only on those fields give identical results,
so the configured-timezone clock is not consulted — and it is that pair that
keys the duplicate-suppression lookup; the configured-timezone clock decides
the result only when a non-empty target list is checked without force. -/
theorem guard_clock_consultation :
    (∀ (force : Bool) (cfg : String) (clk clk2 : Clocks),
      (force = true ∨ pyStrip cfg = "") →
      clk.localDate = clk2.localDate → clk.utcHour = clk2.utcHour →
      scheduleAllows force cfg clk = scheduleAllows force cfg clk2 ∧
      scheduleAllows force cfg clk = ⟨true, clk.localDate, clk.utcHour⟩) ∧
    (∀ (cfg : String) (clk clk2 : Clocks),
      pyStrip cfg ≠ "" →
      clk.tzDate = clk2.tzDate → clk.tzHour = clk2.tzHour →
      scheduleAllows false cfg clk = scheduleAllows false cfg clk2 ∧
      scheduleAllows false cfg clk =
        ⟨decide ((clk.tzHour : ℤ) ∈ parseTargets cfg), clk.tzDate, clk.tzHour⟩) ∧
    (∀ (cfg : String) (clk : Clocks) (sent : List (String × Finset ℕ)),
      pyStrip cfg = "" →
      sendPermitted false cfg clk sent =
        !(decide (clk.utcHour ∈ lookupD sent clk.localDate ∅))) := by
  refine ⟨?_, ?_, ?_⟩
  · rintro force cfg clk clk2 (hf | hc) hd hh
    · subst hf
      simp [scheduleAllows, hd, hh]
    · simp [scheduleAllows, hc, hd, hh]
  · intro cfg clk clk2 hc hd hh
    simp [scheduleAllows, hc, hd, hh]
  · intro cfg clk sent hc
    simp [sendPermitted, scheduleAllows, hc]

theorem guard_clock_consultation_witness :
    (scheduleAllows true "9" ⟨"2024-01-01", 3, "x", 7⟩ =
        scheduleAllows true "9" ⟨"2024-01-01", 3, "y", 8⟩ ∧
      scheduleAllows true "9" ⟨"2024-01-01", 3, "x", 7⟩ = ⟨true, "2024-01-01", 3⟩) ∧
    (scheduleAllows false "9" ⟨"a", 1, "2024-01-01", 9⟩ =
        scheduleAllows false "9" ⟨"b", 2, "2024-01-01", 9⟩ ∧
      scheduleAllows false "9" ⟨"a", 1, "2024-01-01", 9⟩ =
        ⟨decide ((9 : ℤ) ∈ parseTargets "9"), "2024-01-01", 9⟩) ∧
    sendPermitted false "" (uniClock "2024-01-01" 5) [("2024-01-01", {5})] =
      !(decide (5 ∈ lookupD [("2024-01-01", {5})] "2024-01-01" ∅)) :=
  ⟨guard_clock_consultation.1 true "9" _ _ (Or.inl rfl) rfl rfl,
    guard_clock_consultation.2.1 "9" _ _ (by decide) rfl rfl,
    guard_clock_consultation.2.2 "" _ _ (by decide)⟩

end VocabSender
